import Mathlib

/-!
Shallow embedding of `model_engine_server/inference/forwarding/celery_forwarder.py`
(the async task-forwarding worker) and proofs of its specified properties.

Python values that cross the JSON boundary are modelled by `JVal`; Python
exceptions raised and propagated by the worker are modelled by `PyErr`;
fallible Python code is modelled in `Except PyErr`.
-/

namespace CeleryForwarder

/-- A JSON value, the shape of data stored in the Celery result backend and of
task payloads/results (floats are out of scope; no claim involves numbers). -/
inductive JVal where
  | null : JVal
  | bool : Bool → JVal
  | num : Int → JVal
  | str : String → JVal
  | arr : List JVal → JVal
  | obj : List (String × JVal) → JVal

/-- A Python exception value as the worker observes it: its type name, its
`str(e)` message, and its formatted stack trace text. -/
structure PyException where
  excType : String
  message : String
  stacktrace : String
deriving DecidableEq

/-- The Python exceptions the embedded code can raise or propagate. -/
inductive PyErr where
  | keyError : String → PyErr
  | typeError : PyErr
  | jsonDecodeError : PyErr
  | raised : PyException → PyErr
deriving DecidableEq

/-- The constant `celery.states.FAILURE` (the string constant from the celery library). -/
def FAILURE : String := "FAILURE"

/-- The constant `celery.states.SUCCESS` (the string constant from the celery library). -/
def SUCCESS : String := "SUCCESS"

/-- A raw string blob stored in the result backend, characterised by what
`json.loads` does to it: either it is not valid JSON (`loads` raises
`json.JSONDecodeError`) or it parses to a JSON value. -/
inductive StoredBlob where
  | notJson : StoredBlob
  | json : JVal → StoredBlob

/-- The result backend as `after_return` uses it: `get_key_for_task` maps a
task id to a storage key, and `get` returns the stored blob for a key, or
`none` when the key is absent (the redis client returns `None`). -/
structure CeleryBackend where
  get_key_for_task : String → String
  get : String → Option StoredBlob

/-- Python `json.loads` applied to what `backend.get` returned: `json.loads(None)`
raises `TypeError`; a present but invalid blob raises `JSONDecodeError`. -/
def json_loads : Option StoredBlob → Except PyErr JVal
  | none => Except.error PyErr.typeError
  | some StoredBlob.notJson => Except.error PyErr.jsonDecodeError
  | some (StoredBlob.json v) => Except.ok v

/-- Embedding of `raw_celery_response(backend, task_id)`: look up the storage
key of the task, fetch the stored blob and parse it as JSON. -/
def raw_celery_response (backend : CeleryBackend) (task_id : String) : Except PyErr JVal :=
  json_loads (backend.get (backend.get_key_for_task task_id))

/-- Python subscription `v[k]` on a parsed JSON value: a `KeyError` when the
dict lacks the key, a `TypeError` when `v` is not a dict. -/
def getItem (v : JVal) (k : String) : Except PyErr JVal :=
  match v with
  | JVal.obj kvs =>
    match kvs.lookup k with
    | some x => Except.ok x
    | none => Except.error (PyErr.keyError k)
  | _ => Except.error PyErr.typeError

/-- The `ErrorResponse` TypedDict: the response payload for any inference
request that encountered an error. -/
structure ErrorResponse where
  error : String
  error_metadata : String

/-- Modelled from the spec: `format_stacktrace` (from
`model_engine_server.core.utils.format`, not part of the given sources)
returns the full stack trace text of the exception. -/
def format_stacktrace (e_unhandled : PyException) : String :=
  e_unhandled.stacktrace

/-- Embedding of `error_response(msg, e_unhandled)`: build the custom error payload with
`error = str(e)` and `error_metadata = f"{msg}\n{stacktrace}"`. -/
def error_response (msg : String) (e_unhandled : PyException) : ErrorResponse :=
  { error := e_unhandled.message
  , error_metadata := msg ++ "\n" ++ format_stacktrace e_unhandled }

/-! ### Python `json.dumps` on a flat dict of strings

`after_return` serialises the error payload with
`json.dumps(error_payload, indent=False)`. The payload is a dict mapping
string keys to string values, so we embed the CPython `json.dumps` semantics
for exactly that shape, including the `indent` parameter. -/

/-- Lowercase hex digit, as the CPython `\uXXXX` escapes use. -/
def hexDigitChar (n : Nat) : Char :=
  if n < 10 then Char.ofNat (48 + n) else Char.ofNat (87 + n)

/-- A `\uXXXX` escape for a code unit. -/
def uEscape (n : Nat) : String :=
  "\\u" ++ String.mk [hexDigitChar (n / 4096 % 16), hexDigitChar (n / 256 % 16),
    hexDigitChar (n / 16 % 16), hexDigitChar (n % 16)]

/-- CPython `json` string escaping with the default `ensure_ascii=True`:
backslash, quote and the named control characters get two-character escapes,
other control characters and all non-ASCII characters become `\uXXXX`
(surrogate pairs beyond the BMP). -/
def escapeChar (c : Char) : String :=
  if c = '\\' then "\\\\"
  else if c = '"' then "\\\""
  else if c = '\n' then "\\n"
  else if c = '\r' then "\\r"
  else if c = '\t' then "\\t"
  else if c = Char.ofNat 8 then "\\b"
  else if c = Char.ofNat 12 then "\\f"
  else if c.toNat < 32 || c.toNat > 126 then
    if c.toNat < 65536 then uEscape c.toNat
    else uEscape (55296 + (c.toNat - 65536) / 1024) ++ uEscape (56320 + (c.toNat - 65536) % 1024)
  else String.singleton c

/-- A JSON string literal for `s`, per CPython `json.dumps` escaping. -/
def py_json_str (s : String) : String :=
  "\"" ++ String.join (s.toList.map escapeChar) ++ "\""

/-- One `key: value` member, with the CPython key separator `": "`. -/
def dumps_item (p : String × String) : String :=
  py_json_str p.1 ++ ": " ++ py_json_str p.2

/-- The `indent` argument of `json.dumps`, as the encoder distinguishes it:
`indent=None` selects the compact encoder; any other integer `n` (Python
`bool` is a subclass of `int`, so `indent=False` is the integer `0`) selects
the pretty-printing encoder with an indent string of `n` spaces. -/
inductive PyIndent where
  | noIndent : PyIndent
  | indent : Nat → PyIndent

/-- The `indent=False` argument: CPython checks `indent is not None`, which is
true for `False`, and then builds the indent string as `' ' * indent`, which
for `False` is `' ' * 0 = ''` — so the pretty-printing encoder runs with an
empty indent string and still inserts a newline before every member. -/
def indentFalse : PyIndent := PyIndent.indent 0

/-- CPython `json.dumps` on a dict of strings (insertion order preserved).
Compact mode uses the default separators, comma-space between members and
colon-space after keys; with `indent` set,
the item separator defaults to a bare comma and each member sits on its own line
after `'\n' + indent`, with the closing brace on its own unindented line. -/
def py_json_dumps (pairs : List (String × String)) : PyIndent → String
  | PyIndent.noIndent =>
    "\x7b" ++ String.intercalate ", " (pairs.map dumps_item) ++ "\x7d"
  | PyIndent.indent n =>
    if pairs.isEmpty then "\x7b\x7d"
    else
      let ind : String := String.mk (List.replicate n ' ')
      "\x7b" ++ "\n" ++ ind ++ String.intercalate (",\n" ++ ind) (pairs.map dumps_item)
        ++ "\n" ++ "\x7d"

/-- The error payload dict as built by `error_response`, in its literal key
order: `error` then `error_metadata`. -/
def error_payload_pairs (er : ErrorResponse) : List (String × String) :=
  [("error", er.error), ("error_metadata", er.error_metadata)]

/-! ### `ErrorHandlingTask.after_return` -/

/-- The celery `retval` for a finished task: a result dict, or the exception
the task raised (`Union[dict, Exception]`). -/
inductive RetVal where
  | dict : JVal → RetVal
  | exc : PyException → RetVal

/-- A state update published through `self.update_state`. -/
structure PublishedState where
  state : String
  meta : List (String × JVal)

/-- The reads `after_return` performs against the stored record:
`info = raw_celery_response(backend, task_id)`, `result = info["result"]`,
then `result["exc_type"]` and `result["exc_message"]`; any failure along the
chain is the Python exception that propagates. -/
def failure_result_fields (backend : CeleryBackend) (task_id : String) :
    Except PyErr (JVal × JVal) :=
  match raw_celery_response backend task_id with
  | Except.error pe => Except.error pe
  | Except.ok info =>
    match getItem info "result" with
    | Except.error pe => Except.error pe
    | Except.ok result =>
      match getItem result "exc_type" with
      | Except.error pe => Except.error pe
      | Except.ok et =>
        match getItem result "exc_message" with
        | Except.error pe => Except.error pe
        | Except.ok em => Except.ok (et, em)

/-- Embedding of `ErrorHandlingTask.after_return`: when the task status is FAILURE and the
return value is an exception, read the stored record, build the custom error
payload and re-publish the FAILURE state with the original `exc_type` and
`exc_message` plus the serialised payload under `custom`; otherwise do
nothing. The returned value models the effect: `ok none` is the no-op,
`ok (some p)` is the single `update_state` publish, `error pe` is an
uncaught Python exception propagating out of the handler. -/
def after_return (backend : CeleryBackend) (status : String) (retval : RetVal)
    (task_id : String) : Except PyErr (Option PublishedState) :=
  if status = FAILURE then
    match retval with
    | RetVal.exc err =>
      match failure_result_fields backend task_id with
      | Except.error pe => Except.error pe
      | Except.ok (et, em) =>
        let error_payload := error_response "Internal failure" err
        Except.ok (some
          { state := FAILURE
          , meta := [("exc_type", et), ("exc_message", em),
              ("custom", JVal.str (py_json_dumps (error_payload_pairs error_payload) indentFalse))] })
    | RetVal.dict _ => Except.ok none
  else Except.ok none

/-! ### The executor tasks and `create_celery_service` -/

/-- Severity of a log record emitted by the worker (`logger.warning` vs
`logger.exception`, the latter logging at error severity). -/
inductive LogLevel where
  | warning : LogLevel
  | error : LogLevel
deriving DecidableEq

/-- One log record: a severity and a message. -/
structure LogEntry where
  level : LogLevel
  msg : String
deriving DecidableEq

/-- The downstream handler: `Forwarder(payload)` returns a result or raises. -/
def Forwarder : Type := JVal → Except PyException JVal

/-- What one invocation of the executor does: the log records it emits and its
result — a returned value or the exception it re-raises. -/
structure ExecOutcome where
  logs : List LogEntry
  result : Except PyException JVal

/-- The warning records `exec_func` emits for extra arguments: one when there
are extra positional arguments and one when there are extra keyword
arguments, both at warning severity. -/
def extra_arg_warnings (ignored_args : List JVal) (ignored_kwargs : List (String × JVal)) :
    List LogEntry :=
  (if ignored_args.length > 0 then
    [{ level := LogLevel.warning
     , msg := "Ignoring " ++ toString ignored_args.length ++ " positional arguments" }]
  else [])
  ++ (if ignored_kwargs.length > 0 then
    [{ level := LogLevel.warning
     , msg := "Ignoring " ++ toString ignored_kwargs.length ++ " keyword arguments" }]
  else [])

/-- Embedding of `exec_func(payload, *ignored_args, **ignored_kwargs)`: warn about and
discard any extra arguments, call the forwarder on the payload alone, return
its result unchanged; on any exception log it (`logger.exception`, error
severity) and re-raise the same exception. -/
def exec_func (forwarder : Forwarder) (payload : JVal) (ignored_args : List JVal)
    (ignored_kwargs : List (String × JVal)) : ExecOutcome :=
  let warns := extra_arg_warnings ignored_args ignored_kwargs
  match forwarder payload with
  | Except.ok v => { logs := warns, result := Except.ok v }
  | Except.error e =>
    { logs := warns ++ [{ level := LogLevel.error
                        , msg := "Celery service failed to respond to request." }]
    , result := Except.error e }

/-- Embedding of `exec_func_pre_lira`: the task registered under the pre-LIRA name; it
forwards all of its arguments to `exec_func`. -/
def exec_func_pre_lira (forwarder : Forwarder) (payload : JVal) (ignored_args : List JVal)
    (ignored_kwargs : List (String × JVal)) : ExecOutcome :=
  exec_func forwarder payload ignored_args ignored_kwargs

/-- Modelled from the spec: the two fixed task routing keys,
`LIRA_CELERY_TASK_NAME` and `DEFAULT_CELERY_TASK_NAME` (their string values
live in `model_engine_server.common.constants`, not part of the given
sources). -/
inductive CeleryTaskName where
  | liraTask : CeleryTaskName
  | defaultTask : CeleryTaskName
deriving DecidableEq

/-- Modelled from the spec: the broker kinds of `BrokerType` (the string
values of the enum live in `model_engine_server.common.dtos.model_endpoints`,
not part of the given sources). -/
inductive BrokerType where
  | SQS : BrokerType
  | REDIS : BrokerType
deriving DecidableEq

/-- One entry of the `predefined_queues` transport mapping: `{"url": sqs_url}`. -/
structure PredefinedQueue where
  url : Option String
deriving DecidableEq

/-- The broker transport options dict:
`{"predefined_queues": {queue_name: {"url": sqs_url}}}`. -/
structure TransportOptions where
  predefined_queues : List (Option String × PredefinedQueue)
deriving DecidableEq

/-- Modelled from the spec: the `TaskVisibility` enum (from
`model_engine_server.core.celery`, not part of the given sources) selecting
the visibility window; the spec names the 24-hour window. -/
inductive TaskVisibility where
  | VISIBILITY_1H : TaskVisibility
  | VISIBILITY_24H : TaskVisibility
deriving DecidableEq

/-- Python truthiness of the `sqs_url` argument: `if sqs_url` is false for
`None` and for the empty string. -/
def pyTruthy : Option String → Bool
  | none => false
  | some s => !s.isEmpty

/-- The handler type of a registered task. -/
def Handler : Type :=
  JVal → List JVal → List (String × JVal) → ExecOutcome

/-- The celery application `create_celery_service` builds, restricted to what
the given sources determine: the broker kind, the transport options, the
task visibility and the registered task table. -/
structure CeleryService where
  broker_type : BrokerType
  broker_transport_options : Option TransportOptions
  task_visibility : TaskVisibility
  tasks : List (CeleryTaskName × Handler)

/-- Embedding of `create_celery_service`:
pick the SQS broker with `predefined_queues` transport options when
`sqs_url` is truthy, the REDIS broker with no transport options otherwise,
and register `exec_func` under the LIRA task name and `exec_func_pre_lira`
under the pre-LIRA default task name. -/
def create_celery_service (forwarder : Forwarder) (task_visibility : TaskVisibility)
    (queue_name : Option String) (sqs_url : Option String) : CeleryService :=
  { broker_type := if pyTruthy sqs_url then BrokerType.SQS else BrokerType.REDIS
  , broker_transport_options :=
      if pyTruthy sqs_url then
        some { predefined_queues := [(queue_name, { url := sqs_url })] }
      else none
  , task_visibility := task_visibility
  , tasks := [(CeleryTaskName.liraTask, exec_func forwarder),
      (CeleryTaskName.defaultTask, exec_func_pre_lira forwarder)] }

/-- The command-line arguments the entrypoint parses (`--config`, `--set`,
`--task-visibility`, `--num-workers`, `--queue`, `--sqs-url`). -/
structure CliArgs where
  config : String
  setOverrides : List String
  task_visibility : String
  num_workers : Int
  queue : String
  sqs_url : Option String

/-- Embedding of `entrypoint()`: after parsing arguments and loading the forwarder from the
config (config loading is an external collaborator, modelled as the
`forwarder` parameter), build the celery service with the fixed
`TaskVisibility.VISIBILITY_24H`, the parsed queue and the parsed sqs url. -/
def entrypoint (args : CliArgs) (forwarder : Forwarder) : CeleryService :=
  create_celery_service forwarder TaskVisibility.VISIBILITY_24H (some args.queue) args.sqs_url

/-! ### Concrete fixtures used to instantiate the theorems -/

/-- A forwarder that echoes its payload. -/
def fwOk : Forwarder := fun v => Except.ok v

/-- A concrete exception raised by a failing forwarder. -/
def excW : PyException :=
  { excType := "ValueError", message := "bad input", stacktrace := "Traceback line" }

/-- A forwarder that raises `excW` on every payload. -/
def fwBoom : Forwarder := fun _ => Except.error excW

/-- A stored backend record for a failed task, with the celery-populated
`result` mapping holding `exc_type` and `exc_message`. -/
def storedRecordW : JVal :=
  JVal.obj [("result", JVal.obj
    [("exc_type", JVal.str "ValueError"), ("exc_message", JVal.str "bad input")])]

/-- A backend holding a well-formed record for task id `t1` and nothing else. -/
def backendW : CeleryBackend :=
  { get_key_for_task := fun task_id => "celery-task-meta-" ++ task_id
  , get := fun key =>
      if key = "celery-task-meta-t1" then some (StoredBlob.json storedRecordW) else none }

/-- A backend holding no records at all. -/
def backendEmpty : CeleryBackend :=
  { get_key_for_task := fun task_id => task_id
  , get := fun _ => none }

/-- The state `after_return` publishes for task `t1` on `backendW` when the
task failed with `excW`. -/
def pubW : PublishedState :=
  { state := FAILURE
  , meta := [("exc_type", JVal.str "ValueError"), ("exc_message", JVal.str "bad input"),
      ("custom", JVal.str (py_json_dumps (error_payload_pairs
        (error_response "Internal failure" excW)) indentFalse))] }

/-! ### Theorems -/

/-- C1. For every task whose terminal state is FAILURE with an exception value
`e`, whenever `ErrorHandlingTask.after_return` publishes a state, the
published `custom` field is the serialisation of an `ErrorEnvelope` whose
`error` equals `str(e)` and whose `error_metadata` equals `"Internal
failure"`, a newline, and the full stack trace text of `e`. -/
theorem after_return_failure_publishes_error_envelope
    (b : CeleryBackend) (tid : String) (e : PyException) (pub : PublishedState)
    (h : after_return b FAILURE (RetVal.exc e) tid = Except.ok (some pub)) :
    pub.meta.lookup "custom" = some (JVal.str (py_json_dumps (error_payload_pairs
      { error := e.message
      , error_metadata := "Internal failure" ++ "\n" ++ format_stacktrace e }) indentFalse)) := by
  cases hf : failure_result_fields b tid with
  | error pe => simp [after_return, hf] at h
  | ok fields =>
    obtain ⟨et, em⟩ := fields
    simp [after_return, hf] at h
    subst h
    rfl

theorem after_return_failure_publishes_error_envelope_witness :
    pubW.meta.lookup "custom" = some (JVal.str (py_json_dumps (error_payload_pairs
      { error := excW.message
      , error_metadata := "Internal failure" ++ "\n" ++ format_stacktrace excW }) indentFalse)) :=
  after_return_failure_publishes_error_envelope backendW "t1" excW pubW rfl

/-- C2. The serialised error payload stored under `custom` is NOT compact
JSON: `json.dumps(error_payload, indent=False)` treats `False` as the
integer indent `0`, so the published string carries a literal newline before
every member and before the closing brace, even though the envelope string
contents themselves only ever contribute escaped (two-character) newlines.
Evaluated here at a concrete failed task on `backendW`. -/
theorem after_return_custom_json_has_newlines :
    after_return backendW FAILURE (RetVal.exc excW) "t1" = Except.ok (some pubW) ∧
    pubW.meta.lookup "custom" = some (JVal.str
      "\x7b\n\"error\": \"bad input\",\n\"error_metadata\": \"Internal failure\\nTraceback line\"\n\x7d") ∧
    '\n' ∈ (py_json_dumps (error_payload_pairs (error_response "Internal failure" excW))
      indentFalse).toList ∧
    py_json_dumps (error_payload_pairs (error_response "Internal failure" excW)) indentFalse
      ≠ py_json_dumps (error_payload_pairs (error_response "Internal failure" excW))
          PyIndent.noIndent := by
  refine ⟨rfl, rfl, by decide, by decide⟩

/-- C3. Whenever the stored backend record for a failed task parses to
`info` whose `result` mapping carries `exc_type` and `exc_message`,
`after_return` publishes a FAILURE state whose meta preserves exactly those
two values and adds only the `custom` field, so the published failure record
has exactly the shape `{exc_type, exc_message, custom}`. -/
theorem after_return_preserves_exc_fields
    (b : CeleryBackend) (tid : String) (e : PyException) (info result et em : JVal)
    (hinfo : raw_celery_response b tid = Except.ok info)
    (hres : getItem info "result" = Except.ok result)
    (het : getItem result "exc_type" = Except.ok et)
    (hem : getItem result "exc_message" = Except.ok em) :
    after_return b FAILURE (RetVal.exc e) tid = Except.ok (some
      { state := FAILURE
      , meta := [("exc_type", et), ("exc_message", em),
          ("custom", JVal.str (py_json_dumps (error_payload_pairs
            (error_response "Internal failure" e)) indentFalse))] }) := by
  simp [after_return, failure_result_fields, hinfo, hres, het, hem]

theorem after_return_preserves_exc_fields_witness :
    after_return backendW FAILURE (RetVal.exc excW) "t1" = Except.ok (some
      { state := FAILURE
      , meta := [("exc_type", JVal.str "ValueError"), ("exc_message", JVal.str "bad input"),
          ("custom", JVal.str (py_json_dumps (error_payload_pairs
            (error_response "Internal failure" excW)) indentFalse))] }) :=
  after_return_preserves_exc_fields backendW "t1" excW storedRecordW
    (JVal.obj [("exc_type", JVal.str "ValueError"), ("exc_message", JVal.str "bad input")])
    (JVal.str "ValueError") (JVal.str "bad input") rfl rfl rfl rfl

/-- C4. When the status is not FAILURE, or the terminal value is not an
exception, `after_return` is a no-op: whatever the backend holds, it raises
nothing and publishes nothing (so it performs no backend read and no state
update). -/
theorem after_return_noop_unless_failure_exception
    (status : String) (retval : RetVal) (tid : String)
    (h : status ≠ FAILURE ∨ ∃ d, retval = RetVal.dict d) :
    ∀ backend : CeleryBackend, after_return backend status retval tid = Except.ok none := by
  intro backend
  rcases h with h | ⟨d, rfl⟩
  · simp [after_return, h]
  · by_cases hs : status = FAILURE <;> simp [after_return, hs]

theorem after_return_noop_unless_failure_exception_witness :
    after_return backendW SUCCESS (RetVal.dict (JVal.obj [])) "t1" = Except.ok none :=
  after_return_noop_unless_failure_exception SUCCESS (RetVal.dict (JVal.obj [])) "t1"
    (Or.inr ⟨JVal.obj [], rfl⟩) backendW

/-- C5. The executor invokes the forwarder on the payload and returns its
result unchanged — the same value on success, the same re-raised exception
on failure — and on failure it logs an error-severity record. -/
theorem exec_func_result_and_error_logging
    (forwarder : Forwarder) (payload : JVal) (ignored_args : List JVal)
    (ignored_kwargs : List (String × JVal)) :
    (exec_func forwarder payload ignored_args ignored_kwargs).result = forwarder payload ∧
    (∀ e : PyException, forwarder payload = Except.error e →
      ({ level := LogLevel.error
       , msg := "Celery service failed to respond to request." } : LogEntry) ∈
        (exec_func forwarder payload ignored_args ignored_kwargs).logs) := by
  cases hf : forwarder payload with
  | ok v => exact ⟨by simp [exec_func, hf], fun e he => Except.noConfusion he⟩
  | error e => exact ⟨by simp [exec_func, hf], fun e2 he2 => by simp [exec_func, hf]⟩

theorem exec_func_result_and_error_logging_witness :
    (exec_func fwBoom (JVal.str "p") [] []).result = Except.error excW ∧
    ({ level := LogLevel.error
     , msg := "Celery service failed to respond to request." } : LogEntry) ∈
      (exec_func fwBoom (JVal.str "p") [] []).logs := by
  have h := exec_func_result_and_error_logging fwBoom (JVal.str "p") [] []
  exact ⟨h.1.trans rfl, h.2 excW rfl⟩

/-- C6. Routing equivalence: `create_celery_service` registers the LIRA task
name to `exec_func` and the pre-LIRA default task name to
`exec_func_pre_lira`, and the two handlers agree on every invocation, so
invoking the task under either name yields identical results. -/
theorem routing_equivalence_lira_pre_lira
    (forwarder : Forwarder) (tv : TaskVisibility) (qn su : Option String)
    (payload : JVal) (ignored_args : List JVal) (ignored_kwargs : List (String × JVal)) :
    (create_celery_service forwarder tv qn su).tasks
      = [(CeleryTaskName.liraTask, exec_func forwarder),
         (CeleryTaskName.defaultTask, exec_func_pre_lira forwarder)] ∧
    exec_func_pre_lira forwarder payload ignored_args ignored_kwargs
      = exec_func forwarder payload ignored_args ignored_kwargs :=
  ⟨rfl, rfl⟩

/-- C7. Argument tolerance: extra positional and keyword arguments never
change the result of the executor — they are not passed to the forwarder —
and they only prepend warning-severity log records. -/
theorem exec_func_extra_args_tolerated
    (forwarder : Forwarder) (payload : JVal) (ignored_args : List JVal)
    (ignored_kwargs : List (String × JVal)) :
    (exec_func forwarder payload ignored_args ignored_kwargs).result
      = (exec_func forwarder payload [] []).result ∧
    (exec_func forwarder payload ignored_args ignored_kwargs).logs
      = extra_arg_warnings ignored_args ignored_kwargs
        ++ (exec_func forwarder payload [] []).logs ∧
    (∀ l ∈ extra_arg_warnings ignored_args ignored_kwargs, l.level = LogLevel.warning) := by
  refine ⟨?_, ?_, ?_⟩
  · cases hf : forwarder payload <;> simp [exec_func, hf]
  · cases hf : forwarder payload <;> simp [exec_func, hf, extra_arg_warnings]
  · intro l hl
    unfold extra_arg_warnings at hl
    split at hl <;> split at hl <;> simp at hl <;>
      first
        | (rcases hl with hl | hl <;> subst hl <;> rfl)
        | (subst hl; rfl)

theorem exec_func_extra_args_tolerated_witness :
    (exec_func fwOk (JVal.str "p") [JVal.str "x"] [("k", JVal.str "y")]).result
      = (exec_func fwOk (JVal.str "p") [] []).result ∧
    (exec_func fwOk (JVal.str "p") [JVal.str "x"] [("k", JVal.str "y")]).logs
      = extra_arg_warnings [JVal.str "x"] [("k", JVal.str "y")]
        ++ (exec_func fwOk (JVal.str "p") [] []).logs ∧
    ({ level := LogLevel.warning
     , msg := "Ignoring 1 positional arguments" } : LogEntry).level = LogLevel.warning := by
  have h := exec_func_extra_args_tolerated fwOk (JVal.str "p") [JVal.str "x"] [("k", JVal.str "y")]
  exact ⟨h.1, h.2.1, h.2.2 _ (by decide)⟩

/-- C8 counterexample. The claim fails as stated: `sqs_url = some ""` is
non-None, yet Python truthiness routes it to the REDIS branch with no
transport options, not to SQS. -/
theorem create_celery_service_empty_sqs_url_selects_redis :
    (create_celery_service fwOk TaskVisibility.VISIBILITY_24H (some "q") (some "")).broker_type
      = BrokerType.REDIS ∧
    (create_celery_service fwOk TaskVisibility.VISIBILITY_24H (some "q") (some "")).broker_type
      ≠ BrokerType.SQS ∧
    (create_celery_service fwOk TaskVisibility.VISIBILITY_24H
      (some "q") (some "")).broker_transport_options = none :=
  ⟨rfl, by decide, rfl⟩

/-- C8 as amended. Broker resolution: a falsy `sqs_url` (`None` or the empty
string) selects the REDIS broker with no transport options; a non-empty
`sqs_url` selects the SQS broker with `predefined_queues` transport options
mapping the queue name to the url. -/
theorem create_celery_service_broker_resolution
    (forwarder : Forwarder) (tv : TaskVisibility) (qn : Option String) (u : String)
    (hu : u ≠ "") :
    ((create_celery_service forwarder tv qn none).broker_type = BrokerType.REDIS ∧
     (create_celery_service forwarder tv qn none).broker_transport_options = none) ∧
    ((create_celery_service forwarder tv qn (some "")).broker_type = BrokerType.REDIS ∧
     (create_celery_service forwarder tv qn (some "")).broker_transport_options = none) ∧
    ((create_celery_service forwarder tv qn (some u)).broker_type = BrokerType.SQS ∧
     (create_celery_service forwarder tv qn (some u)).broker_transport_options
       = some { predefined_queues := [(qn, { url := some u })] }) := by
  have hie : u.isEmpty = false := by
    cases hb : u.isEmpty
    · rfl
    · exact absurd ((String.isEmpty_iff u).mp hb) hu
  have ht : pyTruthy (some u) = true := by
    simp [pyTruthy, hie]
  refine ⟨⟨rfl, rfl⟩, ⟨rfl, rfl⟩, ?_, ?_⟩ <;>
    simp [create_celery_service, ht]

theorem create_celery_service_broker_resolution_witness :
    ((create_celery_service fwOk TaskVisibility.VISIBILITY_24H (some "q") none).broker_type
        = BrokerType.REDIS ∧
     (create_celery_service fwOk TaskVisibility.VISIBILITY_24H
        (some "q") none).broker_transport_options = none) ∧
    ((create_celery_service fwOk TaskVisibility.VISIBILITY_24H (some "q") (some "")).broker_type
        = BrokerType.REDIS ∧
     (create_celery_service fwOk TaskVisibility.VISIBILITY_24H
        (some "q") (some "")).broker_transport_options = none) ∧
    ((create_celery_service fwOk TaskVisibility.VISIBILITY_24H
        (some "q") (some "https://x")).broker_type = BrokerType.SQS ∧
     (create_celery_service fwOk TaskVisibility.VISIBILITY_24H
        (some "q") (some "https://x")).broker_transport_options
       = some { predefined_queues := [(some "q", { url := some "https://x" })] }) :=
  create_celery_service_broker_resolution fwOk TaskVisibility.VISIBILITY_24H
    (some "q") "https://x" (by decide)

/-- C9. Errors from the result-backend lookup and parsing chain (record
absent, record not valid JSON, record lacking the `result` mapping or its
`exc_type`/`exc_message` fields — exactly the cases in which
`failure_result_fields` raises) are not caught by `after_return`: the same
exception propagates out and no augmented FAILURE state is published. -/
theorem after_return_backend_errors_propagate
    (b : CeleryBackend) (tid : String) (e : PyException) (pe : PyErr)
    (h : failure_result_fields b tid = Except.error pe) :
    after_return b FAILURE (RetVal.exc e) tid = Except.error pe := by
  simp [after_return, h]

theorem after_return_backend_errors_propagate_witness :
    after_return backendEmpty FAILURE (RetVal.exc excW) "t2" = Except.error PyErr.typeError :=
  after_return_backend_errors_propagate backendEmpty "t2" excW PyErr.typeError rfl

/-- C10. The entrypoint builds the celery service with the fixed
`TaskVisibility.VISIBILITY_24H` window: the parsed `--task-visibility`
argument has no effect on the constructed service. -/
theorem entrypoint_fixed_visibility
    (args : CliArgs) (forwarder : Forwarder) (tv : String) :
    entrypoint { args with task_visibility := tv } forwarder = entrypoint args forwarder ∧
    (entrypoint args forwarder).task_visibility = TaskVisibility.VISIBILITY_24H :=
  ⟨rfl, rfl⟩

end CeleryForwarder
